import Mathlib

/-!
Verification of the govee device-client core (rate limiter, brightness-range
learning, state reconciliation, discovery registry, ignore configuration)
against its natural-language specification.

The Python sources are shallowly embedded: every stateful method becomes a
pure function from its inputs (device record, learning store, clock value,
prepared HTTP responses) to its outputs (result, error, updated record,
updated store, persisted snapshots, network trace).  Wall-clock values and
rate-limit timestamps are modelled as integer seconds (Python floats;
the claims only compare and bound them linearly), brightness
and HTTP statuses as integers.  `math.floor(a / b)` on the nonnegative exact
quotients occurring here is `Int.fdiv`, `math.ceil` its mirror.
-/

namespace Govee

/-- Provenance of a device record: `history` = remembered command result,
`api` = freshly polled state (govee_dtos.GoveeSource). -/
inductive Source where
  | history
  | api
deriving DecidableEq, Repr

/-- govee_dtos.GoveeDevice: the cached device record (one per device). -/
structure GoveeDevice where
  device : String
  model : String
  device_name : String
  controllable : Bool
  retrievable : Bool
  support_cmds : List String
  support_turn : Bool
  support_brightness : Bool
  support_color : Bool
  support_color_tem : Bool
  online : Bool
  power_state : Bool
  brightness : Int
  color : Int × Int × Int
  color_temp : Int
  timestamp : Int
  source : Source
  error : Option String
  lock_set_until : Int
  lock_get_until : Int
  learned_set_brightness_max : Option Int
  learned_get_brightness_max : Option Int
  before_set_brightness_turn_on : Bool
  config_offline_is_off : Bool
deriving DecidableEq, Repr

/-- learning_storage.GoveeLearnedInfo: persisted per-device quirks. -/
structure GoveeLearnedInfo where
  set_brightness_max : Option Int := none
  get_brightness_max : Option Int := none
  before_set_brightness_turn_on : Bool := false
  config_offline_is_off : Bool := false
deriving DecidableEq, Repr

/-- The cached learning store: a Python dict device-id → GoveeLearnedInfo,
modelled as an insertion-ordered association list. -/
abbrev LearnStore := List (String × GoveeLearnedInfo)

/-- Dict lookup. -/
def storeLookup (s : LearnStore) (k : String) : Option GoveeLearnedInfo :=
  (s.find? (fun p => p.1 == k)).map (fun p => p.2)

/-- Dict assignment `d[k] = v` (overwrite the key in place, else append;
keys are unique, so replacing the first match is the dict semantics). -/
def storeInsert : LearnStore → String → GoveeLearnedInfo → LearnStore
  | [], k, v => [(k, v)]
  | p :: t, k, v => if p.1 == k then (k, v) :: t else p :: storeInsert t k v

/-! ## Rate limiter (Govee._track_rate_limit / Govee.rate_limit_delay) -/

/-- _RATELIMIT_RESET_MAX_SECONDS = 180. -/
def RATELIMIT_RESET_MAX_SECONDS : Int := 180

/-- The rate-limit fields of the client object: `_limit`,
`_limit_remaining`, `_limit_reset`, `_rate_limit_on`. -/
structure RateState where
  limit : Int
  limit_remaining : Int
  limit_reset : Int
  rate_limit_on : Int
deriving DecidableEq, Repr

/-- Initial values from Govee.__init__. -/
def initRateState : RateState :=
  { limit := 100, limit_remaining := 100, limit_reset := 0, rate_limit_on := 5 }

/-- Govee._track_rate_limit.  `hdrs` is `some (total, remaining, reset)`
when all three rate-limit headers are present and parse, otherwise `none`
(missing header or parse failure), in which case the remaining budget is
pessimistically decremented. -/
def track_rate_limit (st : RateState) (hdrs : Option (Int × Int × Int)) (now : Int) :
    RateState :=
  match hdrs with
  | some (total, remaining, reset_api) =>
    let limit_reset : Int := now + RATELIMIT_RESET_MAX_SECONDS
    let limit_reset : Int := if reset_api < limit_reset then reset_api else limit_reset
    { st with limit := total, limit_remaining := remaining, limit_reset := limit_reset }
  | none =>
    { st with limit_remaining := st.limit_remaining - 1 }

/-- Govee.rate_limit_reset_seconds: `_limit_reset - utcnow()`. -/
def rate_limit_reset_seconds (st : RateState) (now : Int) : Int :=
  st.limit_reset - now

/-- Govee.rate_limit_delay: returns the number of seconds the caller is
suspended (0 = the call is a no-op). -/
def rate_limit_delay_sleep (st : RateState) (now : Int) : Int :=
  if st.limit_remaining ≤ st.rate_limit_on then
    let sleep_sec := rate_limit_reset_seconds st now
    if sleep_sec > 0 then sleep_sec else 0
  else 0

/-- Govee.rate_limit_on setter: validates the new threshold. -/
def rate_limit_on_set (st : RateState) (val : Int) : Except String RateState :=
  if val > st.limit then
    .error ("Rate limiter threshold " ++ toString val ++ " must be below " ++ toString st.limit)
  else if val < 1 then
    .error ("Rate limiter threshold " ++ toString val ++ " must be above 1")
  else
    .ok { st with rate_limit_on := val }

/-! ## String containment (the Python `"API-Error 400" in err` test) -/

/-- Does `needle` occur at the very start of the character list? -/
def charListLeads : List Char → List Char → Bool
  | [], _ => true
  | _ :: _, [] => false
  | a :: as, b :: bs => a == b && charListLeads as bs

/-- Does `needle` occur anywhere inside the character list? -/
def charListHas (needle : List Char) : List Char → Bool
  | [] => needle.isEmpty
  | c :: rest => charListLeads needle (c :: rest) || charListHas needle rest

/-- Python substring test `needle in hay`. -/
def strHasSub (hay needle : String) : Bool :=
  charListHas needle.data hay.data

/-! ## Field-level state merge (Govee._update_state) -/

/-- The per-source ignore lists configured through
Govee.ignore_device_attributes (`self._ignore_fields`). -/
structure Ignore where
  api : List String := []
  history : List String := []
deriving DecidableEq, Repr

/-- Selects `self._ignore_fields[source]`. -/
def ignoreList (ig : Ignore) : Source → List String
  | .api => ig.api
  | .history => ig.history

/-- The field names of the GoveeDevice dataclass
(`GoveeDevice.__dataclass_fields__`), in declaration order. -/
def deviceFieldNames : List String :=
  ["device", "model", "device_name", "controllable", "retrievable",
   "support_cmds", "support_turn", "support_brightness", "support_color",
   "support_color_tem", "online", "power_state", "brightness", "color",
   "color_temp", "timestamp", "source", "error", "lock_set_until",
   "lock_get_until", "learned_set_brightness_max",
   "learned_get_brightness_max", "before_set_brightness_turn_on",
   "config_offline_is_off"]

/-- A value passed to `setattr` by _update_state (only the field/value
shapes the client actually writes). -/
inductive FieldVal where
  | b (x : Bool)
  | i (x : Int)
  | s (x : Option String)
  | src (x : Source)
  | rgb (x : Int × Int × Int)
deriving DecidableEq, Repr

/-- Python `setattr(device, field, val)` for the fields the client writes. -/
def setField (d : GoveeDevice) : String → FieldVal → GoveeDevice
  | "online", .b x => { d with online := x }
  | "power_state", .b x => { d with power_state := x }
  | "brightness", .i x => { d with brightness := x }
  | "color", .rgb x => { d with color := x }
  | "color_temp", .i x => { d with color_temp := x }
  | "error", .s x => { d with error := x }
  | "source", .src x => { d with source := x }
  | _, _ => d

/-- Govee._update_state on an existing device: unknown field names are
rejected (no write), ignored fields are suppressed as a successful no-op,
otherwise the field is set and provenance/timestamp stamped. -/
def update_state (ig : Ignore) (now : Int) (d : GoveeDevice) (source : Source)
    (field : String) (val : FieldVal) : GoveeDevice :=
  if ¬ deviceFieldNames.contains field then d
  else if (ignoreList ig source).contains field.toLower then d
  else
    let d := setField d field val
    { d with source := source, timestamp := now }

/-! ## Learning persistence (Govee._learn) -/

/-- Result of Govee._learn: the updated in-memory cache and the list of
snapshots flushed to the backing store (empty or a singleton). -/
structure LearnOut where
  store : LearnStore
  wrote : List LearnStore
deriving Repr

/-- Govee._learn: compare the learned brightness maxima of the device record
with the cached store entry, update the cache, and write the whole map
through on change. -/
def learn (store : LearnStore) (d : GoveeDevice) : LearnOut :=
  let info := (storeLookup store d.device).getD {}
  let changed1 := info.set_brightness_max != d.learned_set_brightness_max
  let changed2 := info.get_brightness_max != d.learned_get_brightness_max
  let info := { info with set_brightness_max := d.learned_set_brightness_max,
                          get_brightness_max := d.learned_get_brightness_max }
  let store := storeInsert store d.device info
  if changed1 || changed2 then { store := store, wrote := [store] }
  else { store := store, wrote := [] }

/-! ## Control commands (Govee._control, Govee._turn, Govee.set_brightness)

An HTTP PUT outcome is prepared ahead of time as a `CtrlResponse`
(`none` stands for a transport failure, which _api_request_internal turns
into a status -1 error response).  The clock is the single instant `now`;
the command-lock sleep inside _control only delays the call, which the
static clock absorbs. -/

/-- One prepared response for a control PUT: HTTP status, the `message`
field of the JSON body (when there is a body), and the error body text. -/
structure CtrlResponse where
  status : Int
  jsonMessage : Option String
  text : String
deriving DecidableEq, Repr

/-- A command value: `{"name": command, "value": params}`. -/
inductive CmdValue where
  | int (n : Int)
  | str (s : String)
deriving DecidableEq, Repr

/-- Rendering of a command value inside the f-string error. -/
def cmdValueText : CmdValue → String
  | .int n => toString n
  | .str s => s

/-- DELAY_SET_FOLLOWING_SET_SECONDS. -/
def DELAY_SET_FOLLOWING_SET_SECONDS : Int := 1

/-- DELAY_GET_FOLLOWING_SET_SECONDS. -/
def DELAY_GET_FOLLOWING_SET_SECONDS : Int := 2

/-- The f-string `API-Error {status} on command {cmd}: {text} for device
{device}`; the dataclass repr of the device is abridged to its
string-bearing fields (id, model, name, last error). -/
def controlErrText (status : Int) (command : String) (value : CmdValue)
    (text : String) (d : GoveeDevice) : String :=
  "API-Error " ++ toString status ++ " on command " ++ command ++ " "
    ++ cmdValueText value ++ ": " ++ text ++ " for device " ++ d.device
    ++ " " ++ d.model ++ " " ++ d.device_name ++ " " ++ (d.error.getD "None")

/-- Result of Govee._control: the JSON result (its `message` field), the
error string, the device record (locks updated on success), and the PUT
requests actually issued. -/
structure CtrlOut where
  result : Option (Option String)
  err : Option String
  dev : GoveeDevice
  sent : List CmdValue
deriving Repr

/-- Govee._control for an already-resolved device. -/
def control (d : GoveeDevice) (command : String) (value : CmdValue)
    (resp : Option CtrlResponse) (now : Int) : CtrlOut :=
  if ¬ d.controllable then
    { result := none, err := some ("Device " ++ d.device ++ " is not controllable"),
      dev := d, sent := [] }
  else if ¬ d.support_cmds.contains command then
    { result := none, err := some ("Command " ++ command ++ " not possible on device " ++ d.device),
      dev := d, sent := [] }
  else
    match resp with
    | none =>
      { result := none,
        err := some (controlErrText (-1) command value "_api_request_internal: error" d),
        dev := d, sent := [value] }
    | some r =>
      if r.status == 200 then
        { result := some r.jsonMessage, err := none,
          dev := { d with lock_set_until := now + DELAY_SET_FOLLOWING_SET_SECONDS,
                          lock_get_until := now + DELAY_GET_FOLLOWING_SET_SECONDS },
          sent := [value] }
      else
        { result := none, err := some (controlErrText r.status command value r.text d),
          dev := d, sent := [value] }

/-- Govee._is_success_result_message: `"message" in result and
result["message"] == "Success"`. -/
def is_success_result_message : Option (Option String) → Bool
  | some (some m) => m == "Success"
  | _ => false

/-- Result of Govee._turn. -/
structure TurnOut where
  success : Bool
  err : Option String
  dev : GoveeDevice
  sent : List CmdValue
deriving Repr

/-- Govee._turn for an already-resolved device. -/
def turn (ig : Ignore) (d : GoveeDevice) (onOff : String)
    (resp : Option CtrlResponse) (now : Int) : TurnOut :=
  let c := control d "turn" (.str onOff) resp now
  match c.err with
  | some e => { success := false, err := some e, dev := c.dev, sent := c.sent }
  | none =>
    let success := is_success_result_message c.result
    let dev :=
      if success then
        update_state ig now c.dev .history "power_state" (.b (onOff == "on"))
      else c.dev
    { success := success, err := none, dev := dev, sent := c.sent }

/-- Python `math.ceil(a / b)` for exact integer quotients, `b > 0`. -/
def ceil_div (a b : Int) : Int := -((-a).fdiv b)

/-- Result of Govee.set_brightness: overall success, error, the device
record, the learning cache, the store snapshots persisted, and the PUT
requests issued in order. -/
structure SetBrightnessOut where
  success : Bool
  err : Option String
  dev : GoveeDevice
  store : LearnStore
  wrote : List LearnStore
  sent : List CmdValue
deriving Repr

/-- Govee.set_brightness for an already-resolved device.  `responses` are
the prepared outcomes of the successive control PUTs (the optional
turn-on quirk consumes the first one). -/
def set_brightness (ig : Ignore) (d : GoveeDevice) (store : LearnStore)
    (brightness : Int) (responses : List CtrlResponse) (now : Int) :
    SetBrightnessOut :=
  if brightness < 0 || brightness > 254 then
    { success := false,
      err := some ("set_brightness: invalid value " ++ toString brightness
        ++ ", allowed range 0 .. 254"),
      dev := d, store := store, wrote := [], sent := [] }
  else
    let turnPre := brightness > 0 && d.before_set_brightness_turn_on
    let t : TurnOut :=
      if turnPre then turn ig d "on" responses.head? now
      else { success := false, err := none, dev := d, sent := [] }
    let d := t.dev
    let responses := if turnPre then responses.tail else responses
    let brightness_set := brightness
    let brightness_result := brightness_set
    let brightness_set_100 : Int :=
      if brightness_set > 0 then max 1 ((brightness * 100).fdiv 254) else 0
    let brightness_result_100 := ceil_div (brightness_set_100 * 254) 100
    let bPair :=
      if d.learned_set_brightness_max == some 100 then
        (brightness_set_100, brightness_result_100)
      else (brightness_set, brightness_result)
    let brightness_set := bPair.1
    let brightness_result := bPair.2
    let c1 := control d "brightness" (.int brightness_set) responses.head? now
    let d := c1.dev
    match c1.err with
    | some e =>
      if strHasSub e "API-Error 400" then
        -- try again with 0-100 range
        let c2 := control d "brightness" (.int brightness_set_100)
          responses.tail.head? now
        let d := c2.dev
        match c2.err with
        | some e2 =>
          { success := false, err := some e2, dev := d, store := store,
            wrote := [], sent := t.sent ++ c1.sent ++ c2.sent }
        | none =>
          let d := { d with learned_set_brightness_max := some 100 }
          let lo := learn store d
          let success := is_success_result_message c2.result
          let d :=
            if success then
              let d := update_state ig now d .history "brightness"
                (.i brightness_result_100)
              update_state ig now d .history "power_state"
                (.b (decide (brightness_result_100 > 0)))
            else d
          { success := success, err := none, dev := d, store := lo.store,
            wrote := lo.wrote, sent := t.sent ++ c1.sent ++ c2.sent }
      else
        { success := false, err := some e, dev := d, store := store,
          wrote := [], sent := t.sent ++ c1.sent }
    | none =>
      let learned :=
        if brightness_set > 100 then
          let d := { d with learned_set_brightness_max := some 254 }
          let lo := learn store d
          (d, lo.store, lo.wrote)
        else (d, store, ([] : List LearnStore))
      let d := learned.1
      let store := learned.2.1
      let wrote := learned.2.2
      let success := is_success_result_message c1.result
      let d :=
        if success then
          let d := update_state ig now d .history "brightness" (.i brightness_result)
          update_state ig now d .history "power_state"
            (.b (decide (brightness_result > 0)))
        else d
      { success := success, err := none, dev := d, store := store,
        wrote := wrote, sent := t.sent ++ c1.sent }

/-! ## State polling (Govee._get_lock_seconds, Govee._get_device_state) -/

/-- Govee._get_lock_seconds: `max(0, utcSeconds - now)`. -/
def get_lock_seconds (now : Int) (utcSeconds : Int) : Int :=
  let seconds_lock := utcSeconds - now
  if seconds_lock < 0 then 0 else seconds_lock

/-- One single-key property object of a state response.  `online` models
the test `prop["online"] in [True, "true"]` already evaluated. -/
inductive StateProp where
  | online (v : Bool)
  | powerState (v : String)
  | brightness (v : Int)
  | color (rgb : Int × Int × Int)
  | colorTemInKelvin (v : Int)
  | unknown
deriving DecidableEq, Repr

/-- The accumulated property variables of the parse loop, with the
defaults assigned before the loop (Python `False` is numeric 0 for the
brightness slot). -/
structure PollProps where
  online : Bool := false
  power_state : Bool := false
  brightness : Int := 0
  color : Int × Int × Int := (0, 0, 0)
  color_temp : Int := 0
deriving DecidableEq, Repr

/-- The property parse loop of _get_device_state. -/
def parseProps (props : List StateProp) : PollProps :=
  props.foldl
    (fun acc p =>
      match p with
      | .online v => { acc with online := v }
      | .powerState v => { acc with power_state := v == "on" }
      | .brightness v => { acc with brightness := v }
      | .color rgb => { acc with color := rgb }
      | .colorTemInKelvin v => { acc with color_temp := v }
      | .unknown => acc)
    {}

/-- One prepared response for the state GET. -/
structure StateResponse where
  status : Int
  props : List StateProp
  text : String
deriving DecidableEq, Repr

/-- Result of Govee._get_device_state: the returned record, the error, the
updated cached record, learning cache/persisted snapshots, and how many
state GETs went to the network. -/
structure PollOut where
  result : Option GoveeDevice
  err : Option String
  dev : GoveeDevice
  store : LearnStore
  wrote : List LearnStore
  networkCalls : Nat
deriving Repr

/-- Govee._get_device_state for an already-resolved device.
`config_offline_is_off` is the client-global option (None / False / True);
`resp` is the prepared outcome of the state GET (consulted only when the
poll is neither short-circuited by non-retrievability nor by the poll
cooldown), `none` standing for a transport failure. -/
def get_device_state (ig : Ignore) (config_offline_is_off : Option Bool)
    (d : GoveeDevice) (store : LearnStore) (resp : Option StateResponse)
    (now : Int) : PollOut :=
  let seconds_locked := get_lock_seconds now d.lock_get_until
  if ¬ d.retrievable then
    let d := update_state ig now d .history "source" (.src .history)
    { result := some d, err := none, dev := d, store := store, wrote := [],
      networkCalls := 0 }
  else if seconds_locked ≠ 0 then
    let d := update_state ig now d .history "source" (.src .history)
    { result := some d, err := none, dev := d, store := store, wrote := [],
      networkCalls := 0 }
  else
    match resp with
    | none =>
      { result := none,
        err := some "API-Error -1: _api_request_internal: error",
        dev := d, store := store, wrote := [], networkCalls := 1 }
    | some r =>
      if r.status == 200 then
        let pp := parseProps r.props
        let prop_power_state :=
          if ¬ pp.online then
            match config_offline_is_off with
            | some glob => if glob then false else pp.power_state
            | none => if d.config_offline_is_off then false else pp.power_state
          else pp.power_state
        -- autobrightness learning
        let learnCond :=
          d.learned_get_brightness_max == none
            || (d.learned_get_brightness_max == some 100
                 && decide (pp.brightness > 100))
        let newGetMax : Int := if pp.brightness > 100 then 254 else 100
        let d :=
          if learnCond then
            { d with learned_get_brightness_max := some newGetMax }
          else d
        let lo : LearnOut :=
          if learnCond then learn store d else { store := store, wrote := [] }
        let prop_brightness :=
          if d.learned_get_brightness_max == some 100 then
            (pp.brightness * 254).fdiv 100
          else pp.brightness
        let d := update_state ig now d .api "error" (.s none)
        let d := update_state ig now d .api "online" (.b pp.online)
        let d := update_state ig now d .api "power_state" (.b prop_power_state)
        let d := update_state ig now d .api "brightness" (.i prop_brightness)
        let d := update_state ig now d .api "color" (.rgb pp.color)
        let d := update_state ig now d .api "color_temp" (.i pp.color_temp)
        { result := some d, err := none, dev := d, store := lo.store,
          wrote := lo.wrote, networkCalls := 1 }
      else
        { result := none,
          err := some ("API-Error " ++ toString r.status ++ ": " ++ r.text),
          dev := d, store := store, wrote := [], networkCalls := 1 }

/-! ## Discovery (GoveeApi.get_devices in api.py, Govee.get_devices in
govee_api_laggat.py) -/

/-- One item of the `data.devices` JSON list. -/
structure DeviceListItem where
  device : String
  model : String
  deviceName : String
  controllable : Bool
  retrievable : Bool
  supportCmds : List String
deriving DecidableEq, Repr

/-- The device-DTO construction shared verbatim by both discovery
revisions: defaults, the H6104 and non-retrievable special cases, then a
wholesale override from the learning store when the device has an entry. -/
def buildDevice (item : DeviceListItem) (learning_infos : LearnStore)
    (timestamp : Int) : GoveeDevice :=
  let learned_set_brightness_max : Option Int := none
  let learned_get_brightness_max : Option Int :=
    if ¬ item.retrievable then some (-1) else none
  let before_set_brightness_turn_on := item.model == "H6104"
  let config_offline_is_off := false
  let loaded :=
    match storeLookup learning_infos item.device with
    | some info =>
      (info.set_brightness_max, info.get_brightness_max,
       info.before_set_brightness_turn_on, info.config_offline_is_off)
    | none =>
      (learned_set_brightness_max, learned_get_brightness_max,
       before_set_brightness_turn_on, config_offline_is_off)
  { device := item.device, model := item.model,
    device_name := item.deviceName, controllable := item.controllable,
    retrievable := item.retrievable, support_cmds := item.supportCmds,
    support_turn := item.supportCmds.contains "turn",
    support_brightness := item.supportCmds.contains "brightness",
    support_color := item.supportCmds.contains "color",
    support_color_tem := item.supportCmds.contains "colorTem",
    online := true, power_state := false, brightness := 0,
    color := (0, 0, 0), color_temp := 0, timestamp := timestamp,
    source := .history, error := none, lock_set_until := 0,
    lock_get_until := 0, learned_set_brightness_max := loaded.1,
    learned_get_brightness_max := loaded.2.1,
    before_set_brightness_turn_on := loaded.2.2.1,
    config_offline_is_off := loaded.2.2.2 }

/-- The device registry `self._devices`: a Python dict device-id →
GoveeDevice, as an insertion-ordered association list. -/
abbrev Registry := List (String × GoveeDevice)

/-- Registry lookup. -/
def regLookup (r : Registry) (k : String) : Option GoveeDevice :=
  (r.find? (fun p => p.1 == k)).map (fun p => p.2)

/-- Registry dict assignment. -/
def regInsert (r : Registry) (k : String) (v : GoveeDevice) : Registry :=
  if (r.find? (fun p => p.1 == k)).isSome then
    r.map (fun p => if p.1 == k then (k, v) else p)
  else
    r ++ [(k, v)]

/-- GoveeApi.get_devices (api.py): items whose identifier is already in
the live registry are skipped (`continue`), new ones are appended; a
non-200 response or a response without a device list leaves the registry
untouched (`resp = none`). -/
def api_get_devices (registry : Registry) (learning_infos : LearnStore)
    (resp : Option (List DeviceListItem)) (timestamp : Int) : Registry :=
  match resp with
  | none => registry
  | some items =>
    items.foldl
      (fun reg item =>
        if (regLookup reg item.device).isSome then reg
        else regInsert reg item.device (buildDevice item learning_infos timestamp))
      registry

/-- Govee.get_devices (govee_api_laggat.py): a fresh dict is built from
the response items and assigned to `self._devices` unconditionally at the
end, so the previous registry is discarded (and an error response leaves
an empty registry). -/
def govee_get_devices (_registry : Registry) (learning_infos : LearnStore)
    (resp : Option (List DeviceListItem)) (timestamp : Int) : Registry :=
  let devices : Registry :=
    match resp with
    | none => []
    | some items =>
      items.foldl
        (fun devs item =>
          regInsert devs item.device (buildDevice item learning_infos timestamp))
        []
  devices

/-! ## Ignore configuration (Govee.ignore_device_attributes) -/

/-- Python `str.split(sep)` for a one-character separator, on character
lists: always at least one (possibly empty) part. -/
def splitOnChar (sep : Char) : List Char → List (List Char)
  | [] => [[]]
  | c :: rest =>
    let r := splitOnChar sep rest
    if c == sep then [] :: r
    else
      match r with
      | [] => [[c]]
      | h :: t => (c :: h) :: t

/-- Python `str.split(sep)` for a one-character separator. -/
def pySplit (s : String) (sep : Char) : List String :=
  (splitOnChar sep s.data).map (fun cs => String.mk cs)

/-- ASCII whitespace as stripped by Python `str.strip()`. -/
def isSpaceChar (c : Char) : Bool :=
  c == ' ' || c == '\t' || c == '\n' || c == '\r'

/-- Drop leading whitespace characters. -/
def dropLeadSpaces : List Char → List Char
  | [] => []
  | c :: rest => if isSpaceChar c then dropLeadSpaces rest else c :: rest

/-- Python `str.strip()`. -/
def pyStrip (s : String) : String :=
  String.mk (dropLeadSpaces ((dropLeadSpaces s.data.reverse).reverse))

/-- Python `str.lower()` (ASCII). -/
def pyLower (s : String) : String :=
  String.mk (s.data.map Char.toLower)

/-- An exception escaping ignore_device_attributes: the GoveeError the
method raises deliberately, or the TypeError that the percent-format of
the unknown-field branch raises itself — that format string holds a
single placeholder but is applied to a two-element tuple, so the percent
operation fails before any GoveeError is constructed. -/
inductive IgnoreRaise where
  | goveeError (msg : String)
  | typeError (msg : String)
deriving DecidableEq, Repr

/-- The loop body for one semicolon-separated pair: blank pairs are
skipped; a pair that does not split into exactly `source:field` or names
a source other than api/history raises a GoveeError; a pair naming a
field the GoveeDevice dataclass does not have raises the TypeError of
the broken percent-format instead (see IgnoreRaise); the check
`if src not in ignore_fields[...]` of the original (comparing the source
string against the field list) is modelled verbatim. -/
def ignorePairStep (acc : Ignore) (pairRaw : String) :
    Except IgnoreRaise Ignore :=
  let pair := pyStrip pairRaw
  if pair == "" then .ok acc
  else
    match pySplit pair ':' with
    | [src, field] =>
      let src := pyLower src
      let field := pyLower field
      if ¬ (src == "api" || src == "history") then
        .error (.goveeError ("Cannot disable attributes for source " ++ src
          ++ " as source must be in api, history."))
      else if ¬ deviceFieldNames.contains field then
        .error (.typeError "not all arguments converted during string formatting")
      else if src == "api" then
        .ok (if acc.api.contains src then acc
             else { acc with api := acc.api ++ [field] })
      else
        .ok (if acc.history.contains src then acc
             else { acc with history := acc.history ++ [field] })
    | _ =>
      .error (.goveeError ("Format of " ++ pair
        ++ " is incorrect, use source:attribute;..."))

/-- Govee.ignore_device_attributes: parse the whole string into a fresh
ignore structure, raising on the first bad pair. -/
def ignore_device_attributes (ignore_str : String) :
    Except IgnoreRaise Ignore :=
  let pair_list := if ignore_str == "" then [] else pySplit ignore_str ';'
  pair_list.foldlM ignorePairStep {}

/-- The state effect of calling ignore_device_attributes: the active
ignore-set is replaced only when the parse of the whole string succeeded;
any raise — GoveeError or TypeError — propagates before the assignment
and leaves the previous set active. -/
def ignore_device_attributes_apply (current : Ignore)
    (ignore_str : String) : Ignore × Option IgnoreRaise :=
  match ignore_device_attributes ignore_str with
  | .ok nw => (nw, none)
  | .error e => (current, some e)

/-! ## Concrete fixtures (mirroring tests/mockdata.py) -/

/-- The H6163 dummy device of the repository mock data, with no learned
brightness quirks. -/
def devH6163 : GoveeDevice :=
  { device := "40:83:FF:FF:FF:FF:FF:FF", model := "H6163",
    device_name := "H6131_FFFF", controllable := true, retrievable := true,
    support_cmds := ["turn", "brightness", "color", "colorTem"],
    support_turn := true, support_brightness := true, support_color := true,
    support_color_tem := true, online := true, power_state := true,
    brightness := 254, color := (139, 0, 255), color_temp := 0,
    timestamp := 0, source := .history, error := none,
    lock_set_until := 0, lock_get_until := 0,
    learned_set_brightness_max := none, learned_get_brightness_max := none,
    before_set_brightness_turn_on := false, config_offline_is_off := false }

/-- A successful control PUT (status 200, message Success). -/
def okResponse : CtrlResponse :=
  { status := 200, jsonMessage := some "Success", text := "" }

/-- A bad-value rejection (status 400, body Unsupported Cmd Value). -/
def badValueResponse : CtrlResponse :=
  { status := 400, jsonMessage := none, text := "Unsupported Cmd Value" }

/-- A server-side rejection that is not a bad-value error. -/
def errResponse : CtrlResponse :=
  { status := 500, jsonMessage := none, text := "Internal Server Error" }

/-- The dummy device with the set-range quirk already learned as 0-100. -/
def devK100 : GoveeDevice :=
  { devH6163 with learned_set_brightness_max := some 100 }

/-- The dummy device after the two control PUTs of the learning-retry
scenario: locks set by the successful retry, quirk learned as 100. -/
def devH6163_retry_locked (now : Int) : GoveeDevice :=
  { devH6163 with lock_set_until := now + DELAY_SET_FOLLOWING_SET_SECONDS,
                  lock_get_until := now + DELAY_GET_FOLLOWING_SET_SECONDS,
                  learned_set_brightness_max := some 100 }


/-- The get-range learning rule in the words of the specification: an
unknown quirk becomes 254 when the raw value exceeds 100 and 100
otherwise; a quirk of 100 with a raw value above 100 becomes 254; any
other quirk is untouched.  Stated spec-side for the refinement claim. -/
def claimGetQuirk (old : Option Int) (raw : Int) : Option Int :=
  if old = none ∨ (old = some 100 ∧ raw > 100) then
    some (if raw > 100 then 254 else 100)
  else old

/-- The dummy device with power off and the get-range quirk known (used
by the offline-policy scenarios). -/
def devOffline : GoveeDevice :=
  { devH6163 with power_state := false, learned_get_brightness_max := some 254 }

/-- Discovery-accumulation scenario of the spec: item A of the mock data. -/
def itemA : DeviceListItem :=
  { device := "40:83:FF:FF:FF:FF:FF:FF", model := "H6163",
    deviceName := "H6131_FFFF", controllable := true, retrievable := true,
    supportCmds := ["turn", "brightness", "color", "colorTem"] }

/-- Discovery-accumulation scenario of the spec: item B of the mock data. -/
def itemB : DeviceListItem :=
  { device := "99:F8:FF:FF:FF:FF:FF:FF", model := "H6104",
    deviceName := "H6104_22DC", controllable := true, retrievable := false,
    supportCmds := ["turn", "brightness", "color", "colorTem"] }

/-- Registry after discovering {}, then {A}, then {A, B} with
GoveeApi.get_devices. -/
def demoRegAB : Registry :=
  api_get_devices
    (api_get_devices (api_get_devices [] [] (some []) 0) [] (some [itemA]) 1)
    [] (some [itemA, itemB]) 2

/-- The pairs that ignorePairStep rejects: nonempty after stripping and
either not exactly `source:field`, an unknown source, or an unknown
field. -/
def badPair (pairRaw : String) : Bool :=
  let pair := pyStrip pairRaw
  if pair == "" then false
  else
    match pySplit pair ':' with
    | [src, field] =>
      !(pyLower src == "api" || pyLower src == "history")
        || !(deviceFieldNames.contains (pyLower field))
    | _ => true

/-- The pairs whose rejection goes through the broken unknown-field
branch: nonempty after stripping, exactly `source:field` with a known
source, but a field the GoveeDevice dataclass does not have. -/
def unknownFieldPair (pairRaw : String) : Bool :=
  let pair := pyStrip pairRaw
  if pair == "" then false
  else
    match pySplit pair ':' with
    | [src, field] =>
      (pyLower src == "api" || pyLower src == "history")
        && !(deviceFieldNames.contains (pyLower field))
    | _ => false

end Govee

namespace Govee

/-! ## C8: rate limiter delay -/

/-- C8: `rate_limit_delay` suspends the caller until `reset_time` exactly
when the remaining budget is ≤ the configured threshold and the reset lies
in the future; when remaining exceeds the threshold it is a no-op; and
moving the threshold across a borderline remaining value flips whether the
next call delays. -/
theorem rate_limit_delay_spec (st : RateState) (now : Int) :
    (0 < rate_limit_delay_sleep st now ↔
      st.limit_remaining ≤ st.rate_limit_on ∧ now < st.limit_reset)
    ∧ (0 < rate_limit_delay_sleep st now →
        now + rate_limit_delay_sleep st now = st.limit_reset)
    ∧ (st.rate_limit_on < st.limit_remaining →
        rate_limit_delay_sleep st now = 0)
    ∧ (∀ t1 t2 : Int, 1 ≤ t1 → t2 ≤ st.limit →
        t1 < st.limit_remaining → st.limit_remaining ≤ t2 →
        now < st.limit_reset →
        ∃ st1 st2, rate_limit_on_set st t1 = .ok st1
          ∧ rate_limit_on_set st t2 = .ok st2
          ∧ rate_limit_delay_sleep st1 now = 0
          ∧ 0 < rate_limit_delay_sleep st2 now) := by
  refine ⟨?_, ?_, ?_, ?_⟩
  · simp only [rate_limit_delay_sleep, rate_limit_reset_seconds]
    split_ifs with h1 h2
    · omega
    · omega
    · omega
  · simp only [rate_limit_delay_sleep, rate_limit_reset_seconds]
    split_ifs with h1 h2
    · omega
    · omega
    · omega
  · intro h
    simp only [rate_limit_delay_sleep, rate_limit_reset_seconds]
    split_ifs with h1 h2
    · omega
    · rfl
    · rfl
  · intro t1 t2 ht1 ht2 hlo hhi hreset
    refine ⟨{ st with rate_limit_on := t1 }, { st with rate_limit_on := t2 },
      ?_, ?_, ?_, ?_⟩
    · simp only [rate_limit_on_set]
      split_ifs with hgt hlt
      · exfalso; omega
      · exfalso; omega
      · rfl
    · simp only [rate_limit_on_set]
      split_ifs with hgt hlt
      · exfalso; omega
      · exfalso; omega
      · rfl
    · simp only [rate_limit_delay_sleep, rate_limit_reset_seconds]
      split_ifs <;> omega
    · simp only [rate_limit_delay_sleep, rate_limit_reset_seconds]
      split_ifs <;> omega

/-- Witness for C8 at a concrete borderline state: remaining 5 with
threshold 5 and a future reset delays until the reset. -/
theorem rate_limit_delay_spec_witness :
    (0 : Int) + rate_limit_delay_sleep
      { limit := 100, limit_remaining := 5, limit_reset := 30, rate_limit_on := 5 } 0
      = 30 :=
  (rate_limit_delay_spec
    { limit := 100, limit_remaining := 5, limit_reset := 30, rate_limit_on := 5 }
    0).2.1 (by decide)

/-! ## C10: rate-limit reset cap -/

/-- C10: after processing a response whose rate-limit headers parse, the
stored reset time never exceeds `now + 180`; a header announcing a later
reset is capped at `now + 180`; hence a delay computed from the stored
state at that moment is bounded by 180 seconds. -/
theorem track_rate_limit_reset_cap (st : RateState) (now : Int)
    (total remaining : Int) (reset_api : Int) :
    (track_rate_limit st (some (total, remaining, reset_api)) now).limit_reset
        ≤ now + 180
    ∧ (now + 180 < reset_api →
        (track_rate_limit st (some (total, remaining, reset_api)) now).limit_reset
          = now + 180)
    ∧ rate_limit_delay_sleep
        (track_rate_limit st (some (total, remaining, reset_api)) now) now ≤ 180 := by
  simp only [track_rate_limit, rate_limit_delay_sleep, rate_limit_reset_seconds,
    RATELIMIT_RESET_MAX_SECONDS]
  refine ⟨?_, ?_, ?_⟩
  · split_ifs <;> omega
  · intro h
    split_ifs with h1
    · exfalso; omega
    · rfl
  · split_ifs <;> omega

/-- Witness for C10: a header reset 10000 seconds ahead is capped at 180,
and the resulting delay is at most 180. -/
theorem track_rate_limit_reset_cap_witness :
    (track_rate_limit initRateState (some (100, 1, 10000)) 0).limit_reset = 0 + 180
    ∧ rate_limit_delay_sleep (track_rate_limit initRateState (some (100, 1, 10000)) 0) 0 ≤ 180 :=
  ⟨(track_rate_limit_reset_cap initRateState 0 100 1 10000).2.1 (by decide),
   (track_rate_limit_reset_cap initRateState 0 100 1 10000).2.2⟩

/-! ## C1: discovery and the device registry -/

/-- Appending a binding for an absent key does not disturb a present key. -/
theorem regLookup_append_single (r : Registry) (k k' : String) (v : GoveeDevice)
    (h : (regLookup r k).isSome) :
    regLookup (r ++ [(k', v)]) k = regLookup r k := by
  unfold regLookup at *
  cases hf : r.find? (fun p => p.1 == k) with
  | none => rw [hf] at h; simp at h
  | some p => simp [List.find?_append, hf]

/-- A key just appended is present. -/
theorem regLookup_append_self (r : Registry) (k : String) (v : GoveeDevice) :
    (regLookup (r ++ [(k, v)]) k).isSome := by
  unfold regLookup
  cases hf : r.find? (fun p => p.1 == k) with
  | none => simp [List.find?_append, hf]
  | some p => simp [List.find?_append, hf]

/-- The GoveeApi.get_devices fold never disturbs a key that is already
bound. -/
theorem api_fold_keeps (learning_infos : LearnStore) (timestamp : Int)
    (items : List DeviceListItem) :
    ∀ (reg : Registry) (k : String), (regLookup reg k).isSome →
      regLookup
        (items.foldl
          (fun reg item =>
            if (regLookup reg item.device).isSome then reg
            else regInsert reg item.device (buildDevice item learning_infos timestamp))
          reg) k
        = regLookup reg k := by
  induction items with
  | nil => intro reg k _; rfl
  | cons item rest ih =>
    intro reg k hk
    simp only [List.foldl_cons]
    by_cases hd : (regLookup reg item.device).isSome
    · rw [if_pos hd]; exact ih reg k hk
    · rw [if_neg hd]
      have hne : regInsert reg item.device (buildDevice item learning_infos timestamp)
          = reg ++ [(item.device, buildDevice item learning_infos timestamp)] := by
        unfold regInsert
        rw [if_neg]
        intro hs
        apply hd
        unfold regLookup
        cases hf : reg.find? (fun p => p.1 == item.device) with
        | none => rw [hf] at hs; simp at hs
        | some p => simp
      rw [hne]
      have hk2 : (regLookup (reg ++ [(item.device, buildDevice item learning_infos timestamp)]) k).isSome := by
        rw [regLookup_append_single reg k item.device _ hk]; exact hk
      rw [ih _ k hk2]
      exact regLookup_append_single reg k item.device _ hk

/-- The GoveeApi.get_devices fold binds every listed device identifier. -/
theorem api_fold_adds (learning_infos : LearnStore) (timestamp : Int)
    (items : List DeviceListItem) :
    ∀ (reg : Registry) (item : DeviceListItem), item ∈ items →
      (regLookup
        (items.foldl
          (fun reg item =>
            if (regLookup reg item.device).isSome then reg
            else regInsert reg item.device (buildDevice item learning_infos timestamp))
          reg) item.device).isSome := by
  induction items with
  | nil => intro reg item h; cases h
  | cons hd rest ih =>
    intro reg item hmem
    simp only [List.foldl_cons]
    rcases List.mem_cons.mp hmem with heq | hrest
    · subst heq
      by_cases hk : (regLookup reg item.device).isSome
      · rw [if_pos hk]
        rw [api_fold_keeps learning_infos timestamp rest reg item.device hk]
        exact hk
      · rw [if_neg hk]
        have hne : regInsert reg item.device (buildDevice item learning_infos timestamp)
            = reg ++ [(item.device, buildDevice item learning_infos timestamp)] := by
          unfold regInsert
          rw [if_neg]
          intro hs
          apply hk
          unfold regLookup
          cases hf : reg.find? (fun p => p.1 == item.device) with
          | none => rw [hf] at hs; simp at hs
          | some p => simp
        rw [hne]
        have hself := regLookup_append_self reg item.device (buildDevice item learning_infos timestamp)
        rw [api_fold_keeps learning_infos timestamp rest _ item.device hself]
        exact hself
    · exact ih _ item hrest

/-- C1 (amended): GoveeApi.get_devices (api.py) is additive-only — a
device identifier bound in the registry before a discovery call is bound
to the very same record afterwards, even when the response omits it, and
every identifier of the response is bound afterwards.  (The superseded
Govee.get_devices of govee_api_laggat.py instead replaces the registry
wholesale; see the counterexample.) -/
theorem api_get_devices_additive (registry : Registry)
    (learning_infos : LearnStore) (resp : Option (List DeviceListItem))
    (timestamp : Int) :
    (∀ k, (regLookup registry k).isSome →
      regLookup (api_get_devices registry learning_infos resp timestamp) k
        = regLookup registry k)
    ∧ (∀ items, resp = some items → ∀ item ∈ items,
        (regLookup (api_get_devices registry learning_infos resp timestamp)
          item.device).isSome) := by
  constructor
  · intro k hk
    cases resp with
    | none => rfl
    | some items => exact api_fold_keeps learning_infos timestamp items registry k hk
  · intro items hresp item hmem
    subst hresp
    exact api_fold_adds learning_infos timestamp items registry item hmem

/-- Witness for C1: after {}, {A}, {A, B}, a fourth discovery listing only
B leaves A bound to the very record created by the second call (identity
preserved) and B still bound. -/
theorem api_get_devices_additive_witness :
    regLookup (api_get_devices demoRegAB [] (some [itemB]) 3) itemA.device
      = regLookup demoRegAB itemA.device
    ∧ regLookup demoRegAB itemA.device = some (buildDevice itemA [] 1)
    ∧ (regLookup (api_get_devices demoRegAB [] (some [itemB]) 3) itemB.device).isSome :=
  ⟨(api_get_devices_additive demoRegAB [] (some [itemB]) 3).1 itemA.device (by decide),
   by decide,
   (api_get_devices_additive demoRegAB [] (some [itemB]) 3).2 [itemB] rfl itemB (by decide)⟩

/-- Counterexample for C1 as stated: the discovery of the Govee client in
govee_api_laggat.py (Govee.get_devices) does not accumulate — a discovery
response omitting a known device removes its record from the registry. -/
theorem govee_get_devices_drops_known_device :
    regLookup [(devH6163.device, devH6163)] devH6163.device = some devH6163
    ∧ regLookup
        (govee_get_devices [(devH6163.device, devH6163)] [] (some []) 0)
        devH6163.device = none := by
  decide


/-! ## C9: ignore configuration -/

/-- Bind of `Except` on a success, by iota reduction. -/
theorem exceptBindOk {α β ε : Type} (a : α) (f : α → Except ε β) :
    (Except.ok a >>= f) = f a := rfl

/-- Bind of `Except` on a failure, by iota reduction. -/
theorem exceptBindErr {α β ε : Type} (e : ε) (f : α → Except ε β) :
    ((Except.error e : Except ε α) >>= f) = Except.error e := rfl

/-- A bad pair makes the loop body raise, whatever was accumulated. -/
theorem ignorePairStep_err_of_bad (acc : Ignore) (p : String)
    (h : badPair p = true) : ∃ e, ignorePairStep acc p = .error e := by
  simp only [badPair] at h
  simp only [ignorePairStep]
  by_cases h0 : (pyStrip p == "") = true
  · rw [if_pos h0] at h; cases h
  · rw [if_neg h0] at h ⊢
    rcases hsp : pySplit (pyStrip p) ':' with _ | ⟨src, _ | ⟨field, _ | ⟨x, rest⟩⟩⟩ <;>
      rw [hsp] at h <;> dsimp only
    · exact ⟨_, rfl⟩
    · exact ⟨_, rfl⟩
    · split_ifs <;> first
        | exact ⟨_, rfl⟩
        | (exfalso; simp_all)
    · exact ⟨_, rfl⟩

/-- A good pair never raises, whatever was accumulated. -/
theorem ignorePairStep_ok_of_good (acc : Ignore) (p : String)
    (h : badPair p = false) : ∃ r, ignorePairStep acc p = .ok r := by
  simp only [badPair] at h
  simp only [ignorePairStep]
  by_cases h0 : (pyStrip p == "") = true
  · rw [if_pos h0]; exact ⟨acc, rfl⟩
  · rw [if_neg h0] at h ⊢
    rcases hsp : pySplit (pyStrip p) ':' with _ | ⟨src, _ | ⟨field, _ | ⟨x, rest⟩⟩⟩ <;>
      rw [hsp] at h <;> dsimp only
    · cases h
    · cases h
    · rw [Bool.or_eq_false_iff] at h
      obtain ⟨h1, h2⟩ := h
      split_ifs <;> first
        | exact ⟨_, rfl⟩
        | (exfalso; simp_all)
    · cases h

/-- An unknown-field pair makes the loop body raise the TypeError of the
broken percent-format — never a GoveeError — whatever was
accumulated. -/
theorem ignorePairStep_typeError_of_unknownField (acc : Ignore) (p : String)
    (h : unknownFieldPair p = true) :
    ignorePairStep acc p
      = .error (.typeError "not all arguments converted during string formatting") := by
  simp only [unknownFieldPair] at h
  simp only [ignorePairStep]
  by_cases h0 : (pyStrip p == "") = true
  · rw [if_pos h0] at h; cases h
  · rw [if_neg h0] at h ⊢
    rcases hsp : pySplit (pyStrip p) ':' with _ | ⟨src, _ | ⟨field, _ | ⟨x, rest⟩⟩⟩ <;>
      rw [hsp] at h <;> dsimp only
    · cases h
    · cases h
    · split_ifs <;> first
        | rfl
        | (exfalso; simp_all)
    · cases h

/-- A bad pair that is not an unknown-field pair (malformed, or unknown
source) makes the loop body raise a GoveeError. -/
theorem ignorePairStep_goveeError_of_bad (acc : Ignore) (p : String)
    (h : badPair p = true) (hf : unknownFieldPair p = false) :
    ∃ m, ignorePairStep acc p = .error (.goveeError m) := by
  simp only [badPair] at h
  simp only [unknownFieldPair] at hf
  simp only [ignorePairStep]
  by_cases h0 : (pyStrip p == "") = true
  · rw [if_pos h0] at h; cases h
  · rw [if_neg h0] at h hf ⊢
    rcases hsp : pySplit (pyStrip p) ':' with _ | ⟨src, _ | ⟨field, _ | ⟨x, rest⟩⟩⟩ <;>
      rw [hsp] at h hf <;> dsimp only
    · exact ⟨_, rfl⟩
    · exact ⟨_, rfl⟩
    · split_ifs <;> first
        | exact ⟨_, rfl⟩
        | (exfalso; simp_all)
    · exact ⟨_, rfl⟩

/-- The whole parse succeeds exactly when every pair is good. -/
theorem foldlM_ignore_ok_iff (l : List String) :
    ∀ acc : Ignore,
      (∃ r, l.foldlM ignorePairStep acc = .ok r) ↔ ∀ p ∈ l, badPair p = false := by
  induction l with
  | nil =>
    intro acc
    constructor
    · intro _ p hp; cases hp
    · intro _; exact ⟨acc, rfl⟩
  | cons hd tl ih =>
    intro acc
    rw [List.foldlM_cons]
    constructor
    · rintro ⟨r, hr⟩
      by_cases hb : badPair hd = true
      · obtain ⟨e, he⟩ := ignorePairStep_err_of_bad acc hd hb
        rw [he] at hr
        cases hr
      · obtain ⟨acc2, ha⟩ :=
          ignorePairStep_ok_of_good acc hd (Bool.eq_false_iff.mpr hb)
        rw [ha] at hr
        rw [exceptBindOk] at hr
        intro p hp
        rcases List.mem_cons.mp hp with heq | hmem
        · subst heq; exact Bool.eq_false_iff.mpr hb
        · exact ((ih acc2).mp ⟨r, hr⟩) p hmem
    · intro hall
      obtain ⟨acc2, ha⟩ :=
        ignorePairStep_ok_of_good acc hd (hall hd (List.mem_cons_self hd tl))
      rw [ha]
      rw [exceptBindOk]
      exact (ih acc2).mpr (fun p hp => hall p (List.mem_cons_of_mem hd hp))

/-- A bad pair somewhere makes the whole parse raise. -/
theorem foldlM_ignore_err_of_bad (l : List String) (acc : Ignore)
    (h : ∃ p ∈ l, badPair p = true) :
    ∃ e, l.foldlM ignorePairStep acc = .error e := by
  cases hr : l.foldlM ignorePairStep acc with
  | error e => exact ⟨e, rfl⟩
  | ok r =>
    exfalso
    obtain ⟨p, hp, hbad⟩ := h
    have := ((foldlM_ignore_ok_iff l acc).mp ⟨r, hr⟩) p hp
    rw [hbad] at this
    cases this

/-- C9 (amended): ignore_device_attributes raises exactly when some
nonempty (after stripping) semicolon-separated pair is not exactly
`source:field` with source api/history (case-insensitive) and a
GoveeDevice field name (blank pairs are skipped rather than rejected);
a malformed pair or an unknown source raises a GoveeError, but a pair
naming a field the device record does not have raises the TypeError of
the broken percent-format instead of a GoveeError.  On any raise the
previously active ignore-set stays untouched, and on a fully valid input
the active ignore-set is replaced as a whole, independently of its
previous value. -/
theorem ignore_device_attributes_spec (current : Ignore) (s : String) :
    ((∀ p ∈ (if s == "" then [] else pySplit s ';'), badPair p = false) →
      (ignore_device_attributes_apply current s).2 = none
      ∧ ∃ nw, ignore_device_attributes s = .ok nw
          ∧ ∀ prev : Ignore, ignore_device_attributes_apply prev s = (nw, none))
    ∧ ((∃ p ∈ (if s == "" then [] else pySplit s ';'), badPair p = true) →
      (ignore_device_attributes_apply current s).1 = current
      ∧ ((ignore_device_attributes_apply current s).2).isSome)
    ∧ (∀ p : String, ∀ acc : Ignore, unknownFieldPair p = true →
        ignorePairStep acc p
          = .error (.typeError "not all arguments converted during string formatting"))
    ∧ (∀ p : String, ∀ acc : Ignore, badPair p = true → unknownFieldPair p = false →
        ∃ m, ignorePairStep acc p = .error (.goveeError m)) := by
  refine ⟨?_, ?_, ?_, ?_⟩
  · intro hall
    obtain ⟨nw, hnw⟩ :=
      (foldlM_ignore_ok_iff (if s == "" then [] else pySplit s ';') {}).mpr hall
    have heq : ignore_device_attributes s = .ok nw := hnw
    refine ⟨?_, nw, heq, ?_⟩
    · simp only [ignore_device_attributes_apply, heq]
    · intro prev
      simp only [ignore_device_attributes_apply, heq]
  · intro hbad
    obtain ⟨e, he⟩ :=
      foldlM_ignore_err_of_bad (if s == "" then [] else pySplit s ';') {} hbad
    have heq : ignore_device_attributes s = .error e := he
    constructor
    · simp only [ignore_device_attributes_apply, heq]
    · simp only [ignore_device_attributes_apply, heq, Option.isSome_some]
  · intro p acc hp
    exact ignorePairStep_typeError_of_unknownField acc p hp
  · intro p acc hp hf
    exact ignorePairStep_goveeError_of_bad acc p hp hf

/-- Witness for C9: a fully valid input replaces the active set; an input
naming a field GoveeDevice does not have raises (the TypeError of the
broken percent-format, at the step level) and leaves the previous set
untouched; a pair with an unknown source raises a GoveeError. -/
theorem ignore_device_attributes_spec_witness :
    (ignore_device_attributes_apply { api := ["online"], history := [] }
        "api:power_state;history:brightness").2 = none
    ∧ (ignore_device_attributes_apply { api := ["online"], history := [] }
        "api:noexist").1 = { api := ["online"], history := [] }
    ∧ ((ignore_device_attributes_apply { api := ["online"], history := [] }
        "api:noexist").2).isSome
    ∧ ignorePairStep { api := [], history := [] } "api:noexist"
        = .error (.typeError "not all arguments converted during string formatting")
    ∧ (∃ m, ignorePairStep { api := [], history := [] } "foo:online"
        = .error (.goveeError m)) :=
  ⟨((ignore_device_attributes_spec { api := ["online"], history := [] }
      "api:power_state;history:brightness").1 (by decide)).1,
   ((ignore_device_attributes_spec { api := ["online"], history := [] }
      "api:noexist").2.1 (by decide)).1,
   ((ignore_device_attributes_spec { api := ["online"], history := [] }
      "api:noexist").2.1 (by decide)).2,
   (ignore_device_attributes_spec { api := [], history := [] }
      "api:noexist").2.2.1 "api:noexist" { api := [], history := [] } (by decide),
   (ignore_device_attributes_spec { api := [], history := [] }
      "foo:online").2.2.2 "foo:online" { api := [], history := [] }
      (by decide) (by decide)⟩

/-- Counterexample for C9 as stated, at two concrete inputs: the input
";" consists of two empty semicolon-separated pairs, neither of which is
exactly `source:field` (splitting an empty pair on ":" yields one
component, not two), yet nothing is raised — the empty pairs are
silently skipped and the active ignore-set is replaced by the empty set;
and the input "api:noexist", naming a field the device record does not
have, raises the TypeError of the broken percent-format rather than the
claimed GoveeError/ConfigError. -/
theorem ignore_device_attributes_claim_false :
    ignore_device_attributes ";" = .ok { api := [], history := [] }
    ∧ pySplit ";" ';' = ["", ""]
    ∧ (pySplit "" ':').length ≠ 2
    ∧ ignore_device_attributes "api:noexist"
        = .error (.typeError "not all arguments converted during string formatting") :=
  ⟨rfl, rfl, by decide, rfl⟩



/-! ## Learning-store helper lemmas -/

/-- Looking up the key just assigned returns the assigned value. -/
theorem storeLookup_insert (s : LearnStore) (k : String) (v : GoveeLearnedInfo) :
    storeLookup (storeInsert s k v) k = some v := by
  induction s with
  | nil => simp [storeInsert, storeLookup]
  | cons p t ih =>
    by_cases hp : (p.1 == k) = true
    · simp [storeInsert, storeLookup, hp]
    · simp only [storeInsert, if_neg hp, storeLookup]
      rw [List.find?_cons_of_neg (a := p) (storeInsert t k v) hp]
      exact ih

/-- Govee._learn writes the whole updated map through whenever either
brightness maximum differs from the cached entry, and the written map
carries the values of the device record. -/
theorem learn_changed (store : LearnStore) (d : GoveeDevice)
    (h : ((storeLookup store d.device).getD {}).set_brightness_max
          ≠ d.learned_set_brightness_max
       ∨ ((storeLookup store d.device).getD {}).get_brightness_max
          ≠ d.learned_get_brightness_max) :
    (learn store d).wrote = [(learn store d).store]
    ∧ storeLookup (learn store d).store d.device
        = some { (storeLookup store d.device).getD {} with
                   set_brightness_max := d.learned_set_brightness_max,
                   get_brightness_max := d.learned_get_brightness_max } := by
  simp only [learn]
  have hcond : (((storeLookup store d.device).getD {}).set_brightness_max
        != d.learned_set_brightness_max
      || ((storeLookup store d.device).getD {}).get_brightness_max
        != d.learned_get_brightness_max) = true := by
    rcases h with h | h <;> simp [bne_iff_ne, h]
  rw [hcond]
  rw [if_pos rfl]
  exact ⟨rfl, storeLookup_insert _ _ _⟩

/-- Govee._learn does not write when both brightness maxima already agree
with the cached entry. -/
theorem learn_unchanged (store : LearnStore) (d : GoveeDevice)
    (h1 : ((storeLookup store d.device).getD {}).set_brightness_max
          = d.learned_set_brightness_max)
    (h2 : ((storeLookup store d.device).getD {}).get_brightness_max
          = d.learned_get_brightness_max) :
    (learn store d).wrote = [] := by
  simp only [learn]
  have hcond : (((storeLookup store d.device).getD {}).set_brightness_max
        != d.learned_set_brightness_max
      || ((storeLookup store d.device).getD {}).get_brightness_max
        != d.learned_get_brightness_max) = false := by
    simp [bne_iff_ne, h1, h2]
  rw [hcond]
  rw [if_neg (by simp)]



/-! ## C2: brightness learning retry round-trip -/

/-- C2 (amended): for a device with unknown set_brightness_max, a
set_brightness(142) whose 0-254 attempt is rejected with an API-Error 400
and whose 0-100 retry (sending 55) succeeds (a) returns success and (b)
persists set_brightness_max = 100 to the learning store; but (c) the
cached brightness becomes 140 = round_up(55 * 254 / 100) — the brightness
the device actually reaches on the 0-100 scale — not the intended 142 and
not 55. -/
theorem set_brightness_learning_retry (store : LearnStore) (now : Int)
    (hs : ((storeLookup store devH6163.device).getD {}).set_brightness_max
            ≠ some 100) :
    (set_brightness {} devH6163 store 142 [badValueResponse, okResponse] now).success = true
    ∧ (set_brightness {} devH6163 store 142 [badValueResponse, okResponse] now).dev.learned_set_brightness_max = some 100
    ∧ (∃ w ∈ (set_brightness {} devH6163 store 142 [badValueResponse, okResponse] now).wrote,
        ((storeLookup w devH6163.device).getD {}).set_brightness_max = some 100)
    ∧ (set_brightness {} devH6163 store 142 [badValueResponse, okResponse] now).dev.brightness = 140
    ∧ (set_brightness {} devH6163 store 142 [badValueResponse, okResponse] now).sent
        = [.int 142, .int 55] := by
  refine ⟨rfl, rfl, ?_, rfl, rfl⟩
  obtain ⟨hw, hl⟩ :=
    learn_changed store (devH6163_retry_locked now) (Or.inl hs)
  show ∃ w ∈ (learn store (devH6163_retry_locked now)).wrote,
    ((storeLookup w devH6163.device).getD {}).set_brightness_max = some 100
  rw [hw]
  refine ⟨(learn store (devH6163_retry_locked now)).store, List.mem_singleton.mpr rfl, ?_⟩
  have hl2 : storeLookup (learn store (devH6163_retry_locked now)).store devH6163.device
      = some { (storeLookup store devH6163.device).getD {} with
                 set_brightness_max := some 100,
                 get_brightness_max := devH6163.learned_get_brightness_max } := hl
  rw [hl2]
  rfl

/-- Witness for C2 at the empty learning store. -/
theorem set_brightness_learning_retry_witness :
    (set_brightness {} devH6163 [] 142 [badValueResponse, okResponse] 0).success = true
    ∧ (∃ w ∈ (set_brightness {} devH6163 [] 142 [badValueResponse, okResponse] 0).wrote,
        ((storeLookup w devH6163.device).getD {}).set_brightness_max = some 100)
    ∧ (set_brightness {} devH6163 [] 142 [badValueResponse, okResponse] 0).dev.brightness = 140 :=
  ⟨(set_brightness_learning_retry [] 0 (by decide)).1,
   (set_brightness_learning_retry [] 0 (by decide)).2.2.1,
   (set_brightness_learning_retry [] 0 (by decide)).2.2.2.1⟩

/-- Counterexample for C2 as stated: in the learning-retry scenario the
cached brightness field ends up 140, not the intended 142. -/
theorem set_brightness_retry_caches_scaled_value :
    (set_brightness {} devH6163 [] 142 [badValueResponse, okResponse] 0).success = true
    ∧ (set_brightness {} devH6163 [] 142 [badValueResponse, okResponse] 0).dev.brightness = 140
    ∧ (set_brightness {} devH6163 [] 142 [badValueResponse, okResponse] 0).dev.brightness ≠ 142 := by
  exact ⟨by decide, by decide, by decide⟩

/-! ## C3: rejection handling when the quirk is known -/

/-- C3 (amended): a control rejection whose error is not a bad-value
(API-Error 400) error is final — one attempt, failure returned — whatever
the learned quirk; but a bad-value rejection is retried once on the 0-100
scale even when set_brightness_max is already known (100 or 254), and the
call succeeds when the retry succeeds. -/
theorem set_brightness_known_quirk_rejection (m : Int) (hm : m = 100 ∨ m = 254) :
    ((set_brightness {} { devH6163 with learned_set_brightness_max := some m }
        [] 142 [errResponse] 0).sent.length = 1
     ∧ (set_brightness {} { devH6163 with learned_set_brightness_max := some m }
        [] 142 [errResponse] 0).success = false
     ∧ ((set_brightness {} { devH6163 with learned_set_brightness_max := some m }
        [] 142 [errResponse] 0).err).isSome = true)
    ∧ ((set_brightness {} { devH6163 with learned_set_brightness_max := some m }
        [] 142 [badValueResponse, okResponse] 0).sent
          = [.int (if m = 100 then 55 else 142), .int 55]
       ∧ (set_brightness {} { devH6163 with learned_set_brightness_max := some m }
        [] 142 [badValueResponse, okResponse] 0).success = true) := by
  rcases hm with h | h <;> subst h
  · exact ⟨⟨by decide, by decide, by decide⟩, by decide, by decide⟩
  · exact ⟨⟨by decide, by decide, by decide⟩, by decide, by decide⟩

/-- Witness for C3 at quirk 100. -/
theorem set_brightness_known_quirk_rejection_witness :
    (set_brightness {} { devH6163 with learned_set_brightness_max := some 100 }
        [] 142 [errResponse] 0).success = false
    ∧ (set_brightness {} { devH6163 with learned_set_brightness_max := some 100 }
        [] 142 [badValueResponse, okResponse] 0).success = true :=
  ⟨(set_brightness_known_quirk_rejection 100 (Or.inl rfl)).1.2.1,
   (set_brightness_known_quirk_rejection 100 (Or.inl rfl)).2.2⟩

/-- Counterexample for C3 as stated: with set_brightness_max already
learned as 100, a bad-value rejection of the control attempt is followed
by a second control attempt, and the call returns success instead of a
final failure. -/
theorem set_brightness_known_quirk_still_retries :
    (set_brightness {} { devH6163 with learned_set_brightness_max := some 100 }
        [] 142 [badValueResponse, okResponse] 0).sent.length = 2
    ∧ (set_brightness {} { devH6163 with learned_set_brightness_max := some 100 }
        [] 142 [badValueResponse, okResponse] 0).success = true := by
  exact ⟨by decide, by decide⟩



/-! ## C6: the brightness scale-down formula -/

/-- A needle occurring at the start of a string occurs in it. -/
theorem charListHas_of_leads (n : List Char) (h : List Char)
    (hl : charListLeads n h = true) : charListHas n h = true := by
  cases h with
  | nil =>
    cases n with
    | nil => rfl
    | cons c t => simp [charListLeads] at hl
  | cons c t => simp [charListHas, hl]

/-- A needle occurring at the start of a string occurs in it. -/
theorem strHasSub_of_leads (hay needle : String)
    (h : charListLeads needle.data hay.data = true) : strHasSub hay needle = true :=
  charListHas_of_leads needle.data hay.data h

/-- C6 (amended): whenever a brightness 0 < b ≤ 254 is sent on the 0-100
scale — because set_brightness_max is 100, or as the bad-value retry —
the value sent is max(1, floor(b * 100 / 254)) (round DOWN, not the
round-up of the claim), which always lies within 1..100. -/
theorem set_brightness_scaledown (b : Int) (hb0 : 0 < b) (hb : b ≤ 254)
    (store : LearnStore) (now : Int) :
    (set_brightness {} devK100 store b [okResponse] now).sent
        = [.int (max 1 ((b * 100).fdiv 254))]
    ∧ (set_brightness {} devH6163 [] b [badValueResponse, okResponse] 0).sent
        = [.int b, .int (max 1 ((b * 100).fdiv 254))]
    ∧ 1 ≤ max 1 ((b * 100).fdiv 254)
    ∧ max 1 ((b * 100).fdiv 254) ≤ 100 := by
  refine ⟨?_, ?_, le_max_left 1 _, ?_⟩
  · have hrange : (decide (b < 0) || decide (b > 254)) = false := by
      simp only [Bool.or_eq_false_iff, decide_eq_false_iff_not, not_lt]
      omega
    have hpos : decide (b > 0) = true := decide_eq_true hb0
    simp only [set_brightness, hrange, hpos, devK100, devH6163, control, okResponse]
    norm_num
    omega
  · interval_cases b <;> decide
  · have hd : (b * 100).fdiv 254 ≤ 100 := by
      rw [Int.fdiv_eq_ediv _ (by norm_num)]
      omega
    exact max_le (by norm_num) hd

/-- Witness for C6 at b = 142 (the sent value is 55 = max 1 (floor
14200/254)). -/
theorem set_brightness_scaledown_witness :
    (set_brightness {} devK100 [] 142 [okResponse] 0).sent
      = [.int (max 1 (((142 : Int) * 100).fdiv 254))]
    ∧ max 1 (((142 : Int) * 100).fdiv 254) = 55 :=
  ⟨(set_brightness_scaledown 142 (by decide) (by decide) [] 0).1, by decide⟩

/-- Counterexample for C6 as stated: at b = 142 the claimed ceiling
formula gives 56, but the value sent with the 0-100 quirk is 55 (the code
rounds down with floor). -/
theorem set_brightness_scaledown_not_ceiling :
    (set_brightness {} devK100 [] 142 [okResponse] 0).sent = [.int 55]
    ∧ ceil_div (142 * 100) 254 = 56
    ∧ (55 : Int) ≠ 56 := by
  exact ⟨by decide, by decide, by decide⟩



/-! ## C4: get-range brightness learning on polls -/

/-- C4: on every successful poll of a retrievable, unlocked device whose
learning store agrees with the record, the get-range quirk is updated
exactly by the claimed rule (unknown becomes 254 if the raw value exceeds
100 else 100; 100 with a raw value above 100 becomes 254), each change is
persisted to the learning store, no write happens without a change, and
the cached brightness is floor(raw * 254 / 100) when the final quirk is
100 and the raw value unscaled otherwise. -/
theorem get_device_state_brightness_learning (d : GoveeDevice) (store : LearnStore)
    (props : List StateProp) (text : String) (cfg : Option Bool) (now : Int)
    (hret : d.retrievable = true)
    (hlock : get_lock_seconds now d.lock_get_until = 0)
    (hcons : ((storeLookup store d.device).getD {}).get_brightness_max
        = d.learned_get_brightness_max) :
    (get_device_state {} cfg d store (some { status := 200, props := props, text := text }) now).dev.learned_get_brightness_max
        = claimGetQuirk d.learned_get_brightness_max (parseProps props).brightness
    ∧ (get_device_state {} cfg d store (some { status := 200, props := props, text := text }) now).dev.brightness
        = (if claimGetQuirk d.learned_get_brightness_max (parseProps props).brightness = some 100
           then ((parseProps props).brightness * 254).fdiv 100
           else (parseProps props).brightness)
    ∧ (claimGetQuirk d.learned_get_brightness_max (parseProps props).brightness
          ≠ d.learned_get_brightness_max →
        ∃ w ∈ (get_device_state {} cfg d store (some { status := 200, props := props, text := text }) now).wrote,
          ((storeLookup w d.device).getD {}).get_brightness_max
            = claimGetQuirk d.learned_get_brightness_max (parseProps props).brightness)
    ∧ (claimGetQuirk d.learned_get_brightness_max (parseProps props).brightness
          = d.learned_get_brightness_max →
        (get_device_state {} cfg d store (some { status := 200, props := props, text := text }) now).wrote = []) := by
  rcases hq : d.learned_get_brightness_max with _ | q
  · by_cases hbr : (parseProps props).brightness > 100
    · refine ⟨?_, ?_, ?_, ?_⟩
      · simp [get_device_state, hret, hlock, update_state, setField,
          deviceFieldNames, ignoreList, hq, hbr, claimGetQuirk]
      · simp [get_device_state, hret, hlock, update_state, setField,
          deviceFieldNames, ignoreList, hq, hbr, claimGetQuirk]
      · intro _
        have hwout : (get_device_state {} cfg d store (some { status := 200, props := props, text := text }) now).wrote
            = (learn store { d with learned_get_brightness_max := some 254 }).wrote := by
          simp [get_device_state, hret, hlock, update_state, setField,
            deviceFieldNames, ignoreList, hq, hbr]
        obtain ⟨hw, hl⟩ := learn_changed store
          { d with learned_get_brightness_max := some 254 }
          (Or.inr (by
            show ((storeLookup store d.device).getD {}).get_brightness_max ≠ some 254
            rw [hcons, hq]
            simp))
        rw [hwout, hw]
        have hl2 : storeLookup (learn store { d with learned_get_brightness_max := some 254 }).store d.device
            = some { (storeLookup store d.device).getD {} with
                       set_brightness_max := d.learned_set_brightness_max,
                       get_brightness_max := some 254 } := hl
        refine ⟨_, List.mem_singleton.mpr rfl, ?_⟩
        rw [hl2]
        simp [claimGetQuirk, hq, hbr]
      · intro hcontra
        simp [claimGetQuirk, hbr] at hcontra
    · refine ⟨?_, ?_, ?_, ?_⟩
      · simp [get_device_state, hret, hlock, update_state, setField,
          deviceFieldNames, ignoreList, hq, hbr, claimGetQuirk]
      · simp [get_device_state, hret, hlock, update_state, setField,
          deviceFieldNames, ignoreList, hq, hbr, claimGetQuirk]
      · intro _
        have hwout : (get_device_state {} cfg d store (some { status := 200, props := props, text := text }) now).wrote
            = (learn store { d with learned_get_brightness_max := some 100 }).wrote := by
          simp [get_device_state, hret, hlock, update_state, setField,
            deviceFieldNames, ignoreList, hq, hbr]
        obtain ⟨hw, hl⟩ := learn_changed store
          { d with learned_get_brightness_max := some 100 }
          (Or.inr (by
            show ((storeLookup store d.device).getD {}).get_brightness_max ≠ some 100
            rw [hcons, hq]
            simp))
        rw [hwout, hw]
        have hl2 : storeLookup (learn store { d with learned_get_brightness_max := some 100 }).store d.device
            = some { (storeLookup store d.device).getD {} with
                       set_brightness_max := d.learned_set_brightness_max,
                       get_brightness_max := some 100 } := hl
        refine ⟨_, List.mem_singleton.mpr rfl, ?_⟩
        rw [hl2]
        simp [claimGetQuirk, hq, hbr]
      · intro hcontra
        simp [claimGetQuirk, hbr] at hcontra
  · by_cases hq100 : q = 100
    · subst hq100
      by_cases hbr : (parseProps props).brightness > 100
      · refine ⟨?_, ?_, ?_, ?_⟩
        · simp [get_device_state, hret, hlock, update_state, setField,
            deviceFieldNames, ignoreList, hq, hbr, claimGetQuirk]
        · simp [get_device_state, hret, hlock, update_state, setField,
            deviceFieldNames, ignoreList, hq, hbr, claimGetQuirk]
        · intro _
          have hwout : (get_device_state {} cfg d store (some { status := 200, props := props, text := text }) now).wrote
              = (learn store { d with learned_get_brightness_max := some 254 }).wrote := by
            simp [get_device_state, hret, hlock, update_state, setField,
              deviceFieldNames, ignoreList, hq, hbr]
          obtain ⟨hw, hl⟩ := learn_changed store
            { d with learned_get_brightness_max := some 254 }
            (Or.inr (by
              show ((storeLookup store d.device).getD {}).get_brightness_max ≠ some 254
              rw [hcons, hq]
              simp))
          rw [hwout, hw]
          have hl2 : storeLookup (learn store { d with learned_get_brightness_max := some 254 }).store d.device
              = some { (storeLookup store d.device).getD {} with
                         set_brightness_max := d.learned_set_brightness_max,
                         get_brightness_max := some 254 } := hl
          refine ⟨_, List.mem_singleton.mpr rfl, ?_⟩
          rw [hl2]
          simp [claimGetQuirk, hq, hbr]
        · intro hcontra
          simp [claimGetQuirk, hbr] at hcontra
      · refine ⟨?_, ?_, ?_, ?_⟩
        · simp [get_device_state, hret, hlock, update_state, setField,
            deviceFieldNames, ignoreList, hq, hbr, claimGetQuirk]
        · simp [get_device_state, hret, hlock, update_state, setField,
            deviceFieldNames, ignoreList, hq, hbr, claimGetQuirk]
        · intro hcontra
          simp [claimGetQuirk, hbr] at hcontra
        · intro _
          simp [get_device_state, hret, hlock, update_state, setField,
            deviceFieldNames, ignoreList, hq, hbr]
    · refine ⟨?_, ?_, ?_, ?_⟩
      · simp [get_device_state, hret, hlock, update_state, setField,
          deviceFieldNames, ignoreList, hq, hq100, claimGetQuirk]
      · simp [get_device_state, hret, hlock, update_state, setField,
          deviceFieldNames, ignoreList, hq, hq100, claimGetQuirk]
      · intro hcontra
        simp [claimGetQuirk, hq100] at hcontra
      · intro _
        simp [get_device_state, hret, hlock, update_state, setField,
          deviceFieldNames, ignoreList, hq, hq100]

/-- Witness for C4: raw 142 with unknown quirk yields quirk 254 and
brightness 142 unscaled; raw 42 with unknown quirk yields quirk 100
(claimGetQuirk gives it) and brightness 106. -/
theorem get_device_state_brightness_learning_witness :
    (get_device_state {} none devH6163 []
        (some { status := 200, props := [.online true, .powerState "on", .brightness 142], text := "" }) 5).dev.learned_get_brightness_max
      = claimGetQuirk none 142
    ∧ claimGetQuirk none 142 = some 254
    ∧ (get_device_state {} none devH6163 []
        (some { status := 200, props := [.online true, .powerState "on", .brightness 142], text := "" }) 5).dev.brightness
      = (if claimGetQuirk none 142 = some 100 then ((142 : Int) * 254).fdiv 100 else 142)
    ∧ (get_device_state {} none devH6163 []
        (some { status := 200, props := [.online true, .powerState "on", .brightness 42], text := "" }) 5).dev.brightness
      = (if claimGetQuirk none 42 = some 100 then ((42 : Int) * 254).fdiv 100 else 42)
    ∧ (if claimGetQuirk none 42 = some 100 then ((42 : Int) * 254).fdiv 100 else (42 : Int)) = 106 :=
  ⟨(get_device_state_brightness_learning devH6163 []
      [.online true, .powerState "on", .brightness 142] "" none 5
      (by decide) (by decide) (by decide)).1,
   by decide,
   (get_device_state_brightness_learning devH6163 []
      [.online true, .powerState "on", .brightness 142] "" none 5
      (by decide) (by decide) (by decide)).2.1,
   (get_device_state_brightness_learning devH6163 []
      [.online true, .powerState "on", .brightness 42] "" none 5
      (by decide) (by decide) (by decide)).2.1,
   by decide⟩

/-! ## C5: offline power-state policy -/

/-- C5 (amended): on a successful poll of a retrievable, unlocked device,
the cached online flag becomes the polled online value; the cached power
state is forced to off exactly when the device is reported offline and
either the global policy override is True, or the override is unset and
the device learned offline_is_off — otherwise the power state reported by
the poll is applied as-is (which can differ from the last known value). -/
theorem get_device_state_offline_policy (d : GoveeDevice) (store : LearnStore)
    (props : List StateProp) (text : String) (cfg : Option Bool) (now : Int)
    (hret : d.retrievable = true)
    (hlock : get_lock_seconds now d.lock_get_until = 0) :
    (get_device_state {} cfg d store (some { status := 200, props := props, text := text }) now).dev.online
        = (parseProps props).online
    ∧ (get_device_state {} cfg d store (some { status := 200, props := props, text := text }) now).dev.power_state
        = (if (parseProps props).online = false
              ∧ (cfg = some true ∨ (cfg = none ∧ d.config_offline_is_off = true))
           then false
           else (parseProps props).power_state) := by
  rcases cfg with _ | g
  · by_cases ho : (parseProps props).online = true
    · constructor <;>
        simp [get_device_state, hret, hlock, update_state, setField,
          deviceFieldNames, ignoreList, ho]
    · by_cases hf : d.config_offline_is_off = true
      · constructor <;>
          simp [get_device_state, hret, hlock, update_state, setField,
            deviceFieldNames, ignoreList, ho, hf]
      · constructor <;>
          simp [get_device_state, hret, hlock, update_state, setField,
            deviceFieldNames, ignoreList, ho, hf]
  · by_cases ho : (parseProps props).online = true
    · constructor <;>
        simp [get_device_state, hret, hlock, update_state, setField,
          deviceFieldNames, ignoreList, ho]
    · rcases g with _ | _ <;> constructor <;>
        simp [get_device_state, hret, hlock, update_state, setField,
          deviceFieldNames, ignoreList, ho]

/-- Witness for C5: global override True forces power off on an offline
poll; global unset with the device flag set also forces off; neither set
applies the polled power state. -/
theorem get_device_state_offline_policy_witness :
    (get_device_state {} (some true) devOffline []
        (some { status := 200, props := [.online false, .powerState "on"], text := "" }) 5).dev.power_state
      = (if (parseProps [.online false, .powerState "on"]).online = false
            ∧ ((some true : Option Bool) = some true
               ∨ ((some true : Option Bool) = none ∧ devOffline.config_offline_is_off = true))
         then false
         else (parseProps [.online false, .powerState "on"]).power_state)
    ∧ (get_device_state {} (some true) devOffline []
        (some { status := 200, props := [.online false, .powerState "on"], text := "" }) 5).dev.power_state
      = false :=
  ⟨(get_device_state_offline_policy devOffline []
      [.online false, .powerState "on"] "" (some true) 5 (by decide) (by decide)).2,
   by decide⟩

/-- Counterexample for C5 as stated: with no policy applying, an offline
poll that reports powerState on sets the cached power state to on, even
though the last known value was off — the cached power state is not left
unchanged. -/
theorem get_device_state_offline_changes_power :
    devOffline.power_state = false
    ∧ (get_device_state {} none devOffline []
        (some { status := 200, props := [.online false, .powerState "on"], text := "" }) 5).dev.power_state
      = true
    ∧ (get_device_state {} none devOffline []
        (some { status := 200, props := [.online false, .powerState "on"], text := "" }) 5).dev.online
      = false := by
  exact ⟨by decide, by decide, by decide⟩

/-! ## C7: poll cooldown after a successful command -/

/-- C7: a successful control command at time t sets the poll cooldown to
t + 2; a state poll issued at any time t2 before t + 2 returns the cached
record re-marked as history-sourced (Remembered), touches neither the
learning store nor its backing file, and issues no network request. -/
theorem poll_within_cooldown_uses_cache (d : GoveeDevice) (store : LearnStore)
    (cfg : Option Bool) (cmd : String) (v : CmdValue) (r : CtrlResponse)
    (resp2 : Option StateResponse) (t t2 : Int)
    (hctl : d.controllable = true)
    (hcmd : d.support_cmds.contains cmd = true)
    (hstatus : r.status = 200)
    (hret : d.retrievable = true)
    (hwithin : t2 < t + 2) :
    (control d cmd v (some r) t).dev.lock_get_until = t + 2
    ∧ (get_device_state {} cfg (control d cmd v (some r) t).dev store resp2 t2).networkCalls = 0
    ∧ (get_device_state {} cfg (control d cmd v (some r) t).dev store resp2 t2).wrote = []
    ∧ (get_device_state {} cfg (control d cmd v (some r) t).dev store resp2 t2).store = store
    ∧ (get_device_state {} cfg (control d cmd v (some r) t).dev store resp2 t2).result
        = some ((get_device_state {} cfg (control d cmd v (some r) t).dev store resp2 t2).dev)
    ∧ (get_device_state {} cfg (control d cmd v (some r) t).dev store resp2 t2).dev
        = { (control d cmd v (some r) t).dev with source := .history, timestamp := t2 } := by
  have hmem : cmd ∈ d.support_cmds := by simpa using hcmd
  have hc : (control d cmd v (some r) t).dev
      = { d with lock_set_until := t + DELAY_SET_FOLLOWING_SET_SECONDS,
                 lock_get_until := t + DELAY_GET_FOLLOWING_SET_SECONDS } := by
    simp [control, hctl, hmem, hstatus]
  rw [hc]
  have hlock : ¬ (get_lock_seconds t2 (t + 2) = 0) := by
    simp only [get_lock_seconds]
    split_ifs <;> omega
  refine ⟨?_, ?_, ?_, ?_, ?_, ?_⟩ <;>
    simp [get_device_state, hret, hlock, update_state, setField, deviceFieldNames,
      ignoreList, DELAY_GET_FOLLOWING_SET_SECONDS]

/-- Witness for C7: command at t = 10, poll at t2 = 11. -/
theorem poll_within_cooldown_uses_cache_witness :
    (control devH6163 "turn" (.str "on") (some okResponse) 10).dev.lock_get_until = 12
    ∧ (get_device_state {} none (control devH6163 "turn" (.str "on") (some okResponse) 10).dev [] none 11).networkCalls = 0
    ∧ (get_device_state {} none (control devH6163 "turn" (.str "on") (some okResponse) 10).dev [] none 11).dev.source = .history :=
  ⟨by exact (poll_within_cooldown_uses_cache devH6163 [] none "turn" (.str "on")
      okResponse none 10 11 (by decide) (by decide) (by decide) (by decide) (by decide)).1,
   (poll_within_cooldown_uses_cache devH6163 [] none "turn" (.str "on")
      okResponse none 10 11 (by decide) (by decide) (by decide) (by decide) (by decide)).2.1,
   by decide⟩


end Govee
